import Mathlib

/-!
Verification of the Warp2Api Go bridge.

This file gives a shallow embedding of the parts of the program that the
verified properties talk about:

* the protocol-translation functions of `internal/bridge/services/service.go`
  (`convertToWarpRequest`, `convertMessagesToWarpRequest`,
  `convertWarpToMessagesResponse`),
* the request validation performed by the HTTP handlers of
  `internal/handlers/handlers.go`,
* the streaming writer of `internal/streaming` (`SendEvent`, `SendError`,
  `SendDone`, `Close`) and the error path of `handleStreamingChat`,
* the token manager of `internal/auth/manager.go` (`GetValidToken`,
  `isTokenExpired`, `getAnonymousToken`).

Go `interface{}` content values are modelled by the inductive `Content`;
`map[string]interface{}` schema objects by an association list; `float64`
sampling parameters by `Rat` (they are only ever copied, never computed
with); time by Unix seconds as `Int`.  Network and JSON-parsing outcomes of
the Go code are inputs of the embedded functions, so that every code path of
the source is representable.  A slice access that can panic in Go is
embedded as an `Option`-returning function (`none` = panic).
-/

namespace Warp2Api

/-- A JSON schema / arguments object (`map[string]interface{}` in Go),
modelled shallowly as an association list. -/
abbrev Schema := List (String × String)

/-- The `tool_choice` field (`interface{}` in Go), copied verbatim by every
conversion. -/
abbrev ToolChoiceVal := Option String

/-- Go `float64` sampling parameters; only ever copied by the code in view. -/
abbrev GoFloat := Rat

/-- One typed content block of a message (`"type"`-discriminated JSON block). -/
inductive ContentBlock where
  | text (s : String)
  | image (data mime : String)
  | toolUse (id name : String) (input : Schema)
  | toolResult (toolUseId : String) (content : String) (isError : Bool)
deriving DecidableEq, Repr

/-- A message `content` value (`interface{}` in Go): either a plain string,
a list of typed blocks, or absent/other. -/
inductive Content where
  | str (s : String)
  | blocks (bs : List ContentBlock)
  | null
deriving DecidableEq, Repr

/-- `models.ToolCallFunction`. -/
structure ToolCallFunction where
  name : String
  arguments : Schema
deriving DecidableEq, Repr

/-- `models.ToolCall`. -/
structure ToolCall where
  id : String
  type : String
  function : ToolCallFunction
deriving DecidableEq, Repr

/-- `models.ChatMessage`. -/
structure ChatMessage where
  role : String
  content : Content
  name : String := ""
  toolCalls : List ToolCall := []
  toolCallID : String := ""
deriving DecidableEq, Repr

/-- `models.ToolFunction`. -/
structure ToolFunction where
  name : String
  description : String := ""
  parameters : Schema := []
deriving DecidableEq, Repr

/-- `models.Tool`. -/
structure Tool where
  type : String
  function : ToolFunction
deriving DecidableEq, Repr

/-- `models.ChatCompletionsRequest`. -/
structure ChatCompletionsRequest where
  model : String
  messages : List ChatMessage
  maxTokens : Int := 0
  temperature : GoFloat := 0
  topP : GoFloat := 0
  stream : Bool := false
  tools : List Tool := []
  toolChoice : ToolChoiceVal := none
  user : String := ""
deriving DecidableEq, Repr

/-- `models.ClaudeMessage`. -/
structure ClaudeMessage where
  role : String
  content : Content
deriving DecidableEq, Repr

/-- `models.ClaudeTool`. -/
structure ClaudeTool where
  name : String
  description : String := ""
  inputSchema : Schema := []
deriving DecidableEq, Repr

/-- `models.MessagesRequest`.  Note the dialect-level `system` field. -/
structure MessagesRequest where
  model : String
  maxTokens : Int := 0
  messages : List ClaudeMessage
  system : String := ""
  temperature : GoFloat := 0
  topP : GoFloat := 0
  topK : Int := 0
  stream : Bool := false
  stop : List String := []
  tools : List ClaudeTool := []
  toolChoice : ToolChoiceVal := none
deriving DecidableEq, Repr

/-- `models.WarpRequest` — the canonical internal request.  The Go struct has
exactly these fields; in particular it has no system-instruction field. -/
structure WarpRequest where
  model : String
  messages : List ChatMessage
  maxTokens : Int := 0
  temperature : GoFloat := 0
  stream : Bool := false
  tools : List Tool := []
  toolChoice : ToolChoiceVal := none
deriving DecidableEq, Repr

/-- `models.Usage`. -/
structure Usage where
  promptTokens : Int
  completionTokens : Int
  totalTokens : Int
deriving DecidableEq, Repr

/-- `models.ChatChoice` (the `Delta` pointer field, unused by the code in
view, is omitted). -/
structure ChatChoice where
  index : Int
  message : ChatMessage
  finishReason : String
deriving DecidableEq, Repr

/-- `models.WarpResponse`. -/
structure WarpResponse where
  id : String
  object : String
  created : Int
  model : String
  choices : List ChatChoice
  usage : Usage
deriving DecidableEq, Repr

/-- `models.ClaudeContent`. -/
structure ClaudeContent where
  type : String
  text : String := ""
deriving DecidableEq, Repr

/-- `models.ClaudeUsage`. -/
structure ClaudeUsage where
  inputTokens : Int
  outputTokens : Int
deriving DecidableEq, Repr

/-- `models.MessagesResponse`. -/
structure MessagesResponse where
  id : String
  type : String
  role : String
  content : List ClaudeContent
  model : String
  stopReason : String
  stopSequence : String := ""
  usage : ClaudeUsage
deriving DecidableEq, Repr

/-- `Service.convertToWarpRequest` of `service.go`: copies model, messages,
max tokens, temperature, stream flag, tools and tool choice; `TopP` and
`User` are dropped because `WarpRequest` has no such fields. -/
def convertToWarpRequest (req : ChatCompletionsRequest) : WarpRequest :=
  { model := req.model
    messages := req.messages
    maxTokens := req.maxTokens
    temperature := req.temperature
    stream := req.stream
    tools := req.tools
    toolChoice := req.toolChoice }

/-- The per-message conversion performed by the loop in
`Service.convertMessagesToWarpRequest`: only `Role` and `Content` are set,
the remaining `ChatMessage` fields keep their zero values. -/
def claudeMessageToChatMessage (msg : ClaudeMessage) : ChatMessage :=
  { role := msg.role, content := msg.content }

/-- The per-tool conversion performed by `Service.convertMessagesToWarpRequest`:
a Claude tool becomes a `function`-wrapped tool declaration. -/
def claudeToolToTool (tool : ClaudeTool) : Tool :=
  { type := "function"
    function :=
      { name := tool.name
        description := tool.description
        parameters := tool.inputSchema } }

/-- `Service.convertMessagesToWarpRequest` of `service.go`: converts each
Claude message and tool and copies model, max tokens, temperature, stream
flag and tool choice into a `WarpRequest`.  The request's `System`, `TopP`,
`TopK` and `Stop` fields are not read. -/
def convertMessagesToWarpRequest (req : MessagesRequest) : WarpRequest :=
  { model := req.model
    messages := req.messages.map claudeMessageToChatMessage
    maxTokens := req.maxTokens
    temperature := req.temperature
    stream := req.stream
    tools := req.tools.map claudeToolToTool
    toolChoice := req.toolChoice }

/-- `Service.convertWarpToMessagesResponse` of `service.go`.  The content
extraction is guarded by `len(warpResp.Choices) > 0` (and by the string type
assertion on the message content), but the later `warpResp.Choices[0].FinishReason`
access is unguarded: on an empty `Choices` slice the Go function panics with
an index-out-of-range, embedded here as `none`. -/
def convertWarpToMessagesResponse (warpResp : WarpResponse) : Option MessagesResponse :=
  let content : List ClaudeContent :=
    match warpResp.choices with
    | [] => []
    | c0 :: _ =>
      match c0.message.content with
      | Content.str text => [{ type := "text", text := text }]
      | _ => []
  match warpResp.choices with
  | [] => none
  | c0 :: _ =>
    some
      { id := warpResp.id
        type := "message"
        role := "assistant"
        content := content
        model := warpResp.model
        stopReason := c0.finishReason
        usage :=
          { inputTokens := warpResp.usage.promptTokens
            outputTokens := warpResp.usage.completionTokens } }

/-- The request validation performed by the `Messages` handler of
`handlers.go`: after JSON binding, the only check is that the message list
is non-empty (`"Messages cannot be empty"`); no content segment is
inspected.  `some err` is the rejection, `none` means processing proceeds. -/
def messagesHandlerValidation (req : MessagesRequest) : Option String :=
  if req.messages.length = 0 then some "Messages cannot be empty" else none

/-! ### Token manager (`internal/auth/manager.go`) -/

/-- A JWT token string together with the outcome of parsing it with
`jwt.Parse` under the manager's empty verification key: `raw` is the token
string itself, `parseOk` whether the parse succeeds, and `exp?` the numeric
`exp` claim (Unix seconds) when the claims carry one. -/
structure Token where
  raw : String
  parseOk : Bool
  exp? : Option Int
deriving DecidableEq, Repr

/-- `Manager.isTokenExpired`: a token is treated as expired when it fails to
parse, carries no numeric `exp` claim, or its expiry lies within a 5-minute
(300-second) buffer of the current time (`time.Now().Add(5*time.Minute).After(expTime)`,
a strict comparison). -/
def isTokenExpired (now : Int) (t : Token) : Bool :=
  if !t.parseOk then true
  else
    match t.exp? with
    | some exp => decide (now + 300 > exp)
    | none => true

/-- The mutable state of the manager read and written by `GetValidToken`:
the `"jwt_token"` entry of the go-cache instance (`none` when absent or
evicted). -/
structure AuthState where
  cachedToken : Option Token
deriving DecidableEq, Repr

/-- The environment of one `GetValidToken` call: the configured personal
refresh secret (`config.Warp.RefreshToken`) and the outcomes the two
acquisition network calls would have on this call, plus the current time.
`refreshResult` is the `(resp.AccessToken, err)` outcome of `refreshToken()`
and `anonResult` that of `getAnonymousToken()`. -/
structure AuthEnv where
  refreshSecret : String
  refreshResult : Except String Token
  anonResult : Except String Token
  now : Int
deriving Repr

/-- Which acquisition network calls a `GetValidToken` run performs, in
order. -/
inductive AcquireAttempt where
  | refresh
  | anonymous
deriving DecidableEq, Repr

/-- The instrumented outcome of one `GetValidToken` call: the returned
`(token, error)` pair, the cache state after the call, and the acquisition
attempts performed, in program order. -/
structure GetTokenOut where
  result : Except String Token
  state : AuthState
  attempts : List AcquireAttempt
deriving Repr

/-- The anonymous-token fallback at the end of `Manager.GetValidToken`:
call `getAnonymousToken`; on success cache and return the token, on failure
return the wrapped error and leave the cache untouched. -/
def getValidTokenAnonPath (env : AuthEnv) (st : AuthState)
    (acc : List AcquireAttempt) : GetTokenOut :=
  match env.anonResult with
  | Except.ok t =>
    { result := Except.ok t
      state := { cachedToken := some t }
      attempts := acc ++ [AcquireAttempt.anonymous] }
  | Except.error e =>
    { result := Except.error ("failed to get any valid token: " ++ e)
      state := st
      attempts := acc ++ [AcquireAttempt.anonymous] }

/-- The acquisition part of `Manager.GetValidToken`, reached when there is
no usable cached token: if a personal refresh secret is configured, try
`refreshToken()` first and accept its token when the call returned without
error and with a non-empty token string (caching it); otherwise fall through
to the anonymous path. -/
def getValidTokenAcquire (env : AuthEnv) (st : AuthState) : GetTokenOut :=
  if env.refreshSecret ≠ "" then
    match env.refreshResult with
    | Except.ok t =>
      if t.raw ≠ "" then
        { result := Except.ok t
          state := { cachedToken := some t }
          attempts := [AcquireAttempt.refresh] }
      else getValidTokenAnonPath env st [AcquireAttempt.refresh]
    | Except.error _ => getValidTokenAnonPath env st [AcquireAttempt.refresh]
  else getValidTokenAnonPath env st []

/-- `Manager.GetValidToken`: return the cached token when present and not
expired (per `isTokenExpired`); otherwise acquire a new one, refresh first
when a secret is configured, anonymous as fallback.  Freshly acquired tokens
are returned (and cached) without any expiry check. -/
def GetValidToken (env : AuthEnv) (st : AuthState) : GetTokenOut :=
  match st.cachedToken with
  | some t =>
    if !isTokenExpired env.now t then
      { result := Except.ok t, state := st, attempts := [] }
    else getValidTokenAcquire env st
  | none => getValidTokenAcquire env st

/-- The HTTP outcome of the anonymous-token POST as `getAnonymousToken`
sees it: status code, response body, and the result of `json.Unmarshal` on
the body (`none` = parse error). -/
structure AnonHttpResp where
  statusCode : Int
  body : String
  parsedAccessToken : Option String
deriving Repr

/-- The environment of one `getAnonymousToken` call: the outcome of the
single POST to the `/auth/anonymous` endpoint (`error` = transport error). -/
structure AnonEnv where
  postResult : Except String AnonHttpResp
deriving Repr

/-- `Manager.getAnonymousToken`, instrumented with the number of
acquisition network calls it issues.  The function reads only the manager's
configuration; the `Manager` struct holds no in-flight marker, dedup window
or error-context state, so every invocation unconditionally issues exactly
one POST and then inspects status code and body. -/
def getAnonymousToken (env : AnonEnv) : Except String String × Nat :=
  (match env.postResult with
   | Except.error e => Except.error ("failed to make anonymous request: " ++ e)
   | Except.ok r =>
     if r.statusCode ≠ 200 then
       Except.error ("anonymous request failed with status: " ++ r.body)
     else
       match r.parsedAccessToken with
       | none => Except.error "failed to parse anonymous response"
       | some tok => Except.ok tok,
   1)

/-! ### Streaming writer (`internal/streaming`) and the handler error path -/

/-- The JSON payload of one SSE `data:` line, as produced by the streaming
writer. -/
inductive EventPayload where
  | errorEvent (message : String)
  | doneEvent
  | chunk (id : String)
deriving DecidableEq, Repr

/-- One write performed on the response writer: either a full SSE record
(`"data: …\n\n"` via `SendEvent`) or the bare `"\n"` written by `Close`. -/
inductive WriteItem where
  | sseData (p : EventPayload)
  | rawNewline
deriving DecidableEq, Repr

/-- The writes performed on one stream so far, in order. -/
abbrev StreamWrites := List WriteItem

/-- `Stream.SendEvent`: marshal the payload and write one SSE record. -/
def sendEvent (w : StreamWrites) (p : EventPayload) : StreamWrites :=
  w ++ [WriteItem.sseData p]

/-- `Stream.SendError`: wrap the error in an `ErrorResponse` with type
`"server_error"` and send it as one event. -/
def sendError (w : StreamWrites) (msg : String) : StreamWrites :=
  sendEvent w (EventPayload.errorEvent msg)

/-- `Stream.SendDone`: send the `"done"` stream-termination event.  (No
caller in the repository invokes it.) -/
def sendDone (w : StreamWrites) : StreamWrites :=
  sendEvent w EventPayload.doneEvent

/-- `Stream.Close`: write a final bare newline; no SSE event is produced. -/
def closeStream (w : StreamWrites) : StreamWrites :=
  w ++ [WriteItem.rawNewline]

/-- Whether a write is the dialect's stream-termination event (the `"done"`
event produced by `SendDone`). -/
def isTerminationWrite (x : WriteItem) : Bool :=
  match x with
  | WriteItem.sseData EventPayload.doneEvent => true
  | _ => false

/-- `Handlers.handleStreamingChat` of `handlers.go`, parameterised by the
behaviour of `service.ProcessChatRequest` on the freshly created stream
(the writes it performs and its optional error): on error, `SendError` is
called and the handler returns; the deferred `Close` runs on every path.
(`handleStreamingMessages` has the identical shape.) -/
def handleStreamingChat
    (process : StreamWrites → StreamWrites × Option String) : StreamWrites :=
  let out := process []
  match out.2 with
  | some e => closeStream (sendError out.1 e)
  | none => closeStream out.1

/-! ### Concrete fixtures used by the claim theorems -/

/-- A Messages request whose sole turn carries a `tool_result` block whose
`tool_use_id` matches no `tool_use` id anywhere in the request. -/
def reqC4 : MessagesRequest :=
  { model := "claude-4-sonnet"
    maxTokens := 10
    messages :=
      [{ role := "user"
         content := Content.blocks
           [ContentBlock.toolResult "toolu_nonexistent" "result text" false] }] }

/-- A Chat Completions request with the single user turn `"hi"` and
`max_tokens = 10`. -/
def reqC7 : ChatCompletionsRequest :=
  { model := "claude-4-sonnet"
    messages := [{ role := "user", content := Content.str "hi" }]
    maxTokens := 10 }

/-- A canonical response whose first choice carries plain string content. -/
def respC7 : WarpResponse :=
  { id := "mock_1"
    object := "chat.completion"
    created := 0
    model := "claude-4-sonnet"
    choices :=
      [{ index := 0
         message := { role := "assistant", content := Content.str "Mock response to: hi" }
         finishReason := "stop" }]
    usage := { promptTokens := 10, completionTokens := 20, totalTokens := 30 } }

/-- Two Messages requests that differ only in their (non-empty) `system`
texts. -/
def reqC3a : MessagesRequest :=
  { model := "claude-4-sonnet"
    maxTokens := 10
    messages := [{ role := "user", content := Content.str "hi" }]
    system := "You are a helpful assistant." }

/-- Same request as `reqC3a` with a different non-empty system text. -/
def reqC3b : MessagesRequest :=
  { reqC3a with system := "Answer only in French." }

/-- A 500-character response body. -/
def contentC2 : String := String.mk (List.replicate 500 'a')

/-- An upstream response carrying 500 characters of content but all-zero
usage counts. -/
def respC2 : WarpResponse :=
  { id := "resp2"
    object := "chat.completion"
    created := 0
    model := "claude-4-sonnet"
    choices :=
      [{ index := 0
         message := { role := "assistant", content := Content.str contentC2 }
         finishReason := "stop" }]
    usage := { promptTokens := 0, completionTokens := 0, totalTokens := 0 } }

/-- An upstream response with an empty `Choices` list. -/
def respC10 : WarpResponse :=
  { id := "resp10"
    object := "chat.completion"
    created := 0
    model := "claude-4-sonnet"
    choices := []
    usage := { promptTokens := 0, completionTokens := 0, totalTokens := 0 } }

/-! ### Claim theorems — Protocol Translator -/

/-- Claim C6: for every Messages-dialect request, the translated canonical
request's message list has the same length as the input list, and at every
index the translated message has the same role and the same content value
as the input message (positions beyond the length agree trivially via
`List.get?`). -/
theorem c6_turn_order_and_content_preserved (req : MessagesRequest) (i : Nat) :
    (convertMessagesToWarpRequest req).messages.length = req.messages.length ∧
    ((convertMessagesToWarpRequest req).messages[i]?).map ChatMessage.role
      = (req.messages[i]?).map ClaudeMessage.role ∧
    ((convertMessagesToWarpRequest req).messages[i]?).map ChatMessage.content
      = (req.messages[i]?).map ClaudeMessage.content := by
  refine ⟨by simp [convertMessagesToWarpRequest], ?_, ?_⟩ <;>
    cases h : req.messages[i]? <;>
      simp [convertMessagesToWarpRequest, List.getElem?_map, h,
        claudeMessageToChatMessage]

/-- Claim C7: translating the single-user-turn request `"hi"` with
`max_tokens = 10` preserves the turn list and the budget, and rendering a
canonical response whose first choice carries string content yields a
single-segment text turn with the text unchanged. -/
theorem c7_translate_then_render_round_trip :
    (convertToWarpRequest reqC7).messages = reqC7.messages ∧
    (convertToWarpRequest reqC7).maxTokens = 10 ∧
    (convertToWarpRequest reqC7).model = reqC7.model ∧
    (convertWarpToMessagesResponse respC7).map MessagesResponse.content
      = some [{ type := "text", text := "Mock response to: hi" }] :=
  ⟨rfl, rfl, rfl, rfl⟩

/-- Claim C3 counterexample: two Messages requests that differ only in their
non-empty `system` texts translate to the *same* canonical request, so the
system text is not carried as a system instruction (the information is
lost), contrary to the claim. -/
theorem c3_counterexample_system_text_lost :
    reqC3a.system ≠ reqC3b.system ∧ reqC3a.system ≠ "" ∧ reqC3b.system ≠ "" ∧
    convertMessagesToWarpRequest reqC3a = convertMessagesToWarpRequest reqC3b :=
  ⟨by decide, by decide, by decide, rfl⟩

/-- Claim C3 (amended): the system text is never inserted into the
translated turn list (the canonical turn list is exactly the converted input
messages), but it is not carried either — the canonical `WarpRequest` has no
system field, and the translation output is entirely independent of the
`system` text, which is dropped. -/
theorem c3_amended_system_dropped_not_merged (req : MessagesRequest) (s : String) :
    convertMessagesToWarpRequest { req with system := s }
      = convertMessagesToWarpRequest req ∧
    (convertMessagesToWarpRequest req).messages
      = req.messages.map claudeMessageToChatMessage :=
  ⟨rfl, rfl⟩

/-- Claim C4 counterexample: a request whose sole turn is a `tool_result`
block referencing a `tool_use` id that was never seen passes the handler's
request validation (`none` = accepted) and the dangling block is forwarded
verbatim into the canonical request — no request-validation error is
produced. -/
theorem c4_counterexample_dangling_tool_result_forwarded :
    messagesHandlerValidation reqC4 = none ∧
    (convertMessagesToWarpRequest reqC4).messages.map ChatMessage.content
      = [Content.blocks
          [ContentBlock.toolResult "toolu_nonexistent" "result text" false]] :=
  ⟨rfl, rfl⟩

/-- Claim C4 (amended): the Messages pipeline performs no `tool_result`
validation: the only request-validation check is that the message list is
non-empty, and every content value — a dangling `tool_result` segment
included — is forwarded unchanged into the canonical request (neither
rejected nor dropped). -/
theorem c4_amended_no_tool_result_validation (req : MessagesRequest) :
    (messagesHandlerValidation req = none ↔ req.messages ≠ []) ∧
    (convertMessagesToWarpRequest req).messages.map ChatMessage.content
      = req.messages.map ClaudeMessage.content := by
  constructor
  · by_cases h : req.messages = [] <;>
      simp [messagesHandlerValidation, h]
  · simp [convertMessagesToWarpRequest, List.map_map, Function.comp,
      claudeMessageToChatMessage]

set_option maxRecDepth 8000 in
/-- Claim C2 (code bug evidence): for a 500-character upstream response whose
reported usage counts are all zero, the rendered Messages usage is zero
input tokens and zero output tokens — the counts are passed through
unchanged and no content-length estimate is substituted. -/
theorem c2_zero_usage_rendered_as_zero :
    (convertWarpToMessagesResponse respC2).map MessagesResponse.usage
      = some { inputTokens := 0, outputTokens := 0 } ∧
    (convertWarpToMessagesResponse respC2).map
        (fun r => (r.content.map (fun c => c.text.length)).sum) = some 500 :=
  ⟨rfl, rfl⟩

/-- Claim C10 (code bug evidence): on a `WarpResponse` whose `Choices` list
is empty, `convertWarpToMessagesResponse` hits the unguarded
`Choices[0].FinishReason` access and panics (embedded as `none`) instead of
returning a response with empty content. -/
theorem c10_empty_choices_panics :
    convertWarpToMessagesResponse respC10 = none :=
  rfl

/-! ### Claim theorems — Token manager -/

/-- A token whose `exp` claim lies deep in the past. -/
def tokC1 : Token := { raw := "stale-token", parseOk := true, exp? := some (-1000) }

/-- An environment whose refresh call hands back the stale token. -/
def envC1 : AuthEnv :=
  { refreshSecret := "personal-secret"
    refreshResult := Except.ok tokC1
    anonResult := Except.error "unused"
    now := 0 }

/-- A cached token valid far beyond the safety margin. -/
def tokC1v : Token := { raw := "valid-token", parseOk := true, exp? := some 100000 }

/-- An environment in which both acquisition calls would fail, so only the
cache can supply a token. -/
def envC1w : AuthEnv :=
  { refreshSecret := ""
    refreshResult := Except.error "unused"
    anonResult := Except.error "unused"
    now := 0 }

/-- Claim C1 counterexample: it is not true that every token returned by
`GetValidToken` passes the 5-minute-margin expiry check: with an empty
cache and a refresh call that hands back a token whose `exp` lies in the
past, `GetValidToken` returns that token unchecked even though
`isTokenExpired` holds for it. -/
theorem c1_counterexample_fresh_token_unchecked :
    ¬ (∀ (env : AuthEnv) (st : AuthState) (t : Token),
        (GetValidToken env st).result = Except.ok t →
          isTokenExpired env.now t = false) :=
  fun h => absurd (h envC1 { cachedToken := none } tokC1 rfl) (by decide)

/-- Helper: the anonymous fallback always records an acquisition attempt. -/
theorem getValidTokenAnonPath_attempts_ne_nil (env : AuthEnv) (st : AuthState)
    (acc : List AcquireAttempt) : (getValidTokenAnonPath env st acc).attempts ≠ [] := by
  cases h : env.anonResult <;> simp [getValidTokenAnonPath, h]

/-- Helper: the acquisition part of `GetValidToken` always records at least
one acquisition attempt. -/
theorem getValidTokenAcquire_attempts_ne_nil (env : AuthEnv) (st : AuthState) :
    (getValidTokenAcquire env st).attempts ≠ [] := by
  by_cases hs : env.refreshSecret = ""
  · simpa [getValidTokenAcquire, hs] using
      getValidTokenAnonPath_attempts_ne_nil env st []
  · cases hr : env.refreshResult with
    | ok t =>
      by_cases hraw : t.raw = ""
      · simpa [getValidTokenAcquire, hs, hr, hraw] using
          getValidTokenAnonPath_attempts_ne_nil env st [AcquireAttempt.refresh]
      · simp [getValidTokenAcquire, hs, hr, hraw]
    | error e =>
      simpa [getValidTokenAcquire, hs, hr] using
        getValidTokenAnonPath_attempts_ne_nil env st [AcquireAttempt.refresh]

/-- Claim C1 (amended): a token that `GetValidToken` returns from the cache
— that is, with no acquisition attempt performed — passes the
5-minute-margin expiry check (`isTokenExpired` is false for it); a freshly
refreshed or anonymous token is returned and cached without this check. -/
theorem c1_amended_cached_token_not_expired (env : AuthEnv) (st : AuthState)
    (t : Token) (hok : (GetValidToken env st).result = Except.ok t)
    (hcache : (GetValidToken env st).attempts = []) :
    isTokenExpired env.now t = false := by
  cases hc : st.cachedToken with
  | none =>
    exfalso
    exact getValidTokenAcquire_attempts_ne_nil env st
      (by simpa [GetValidToken, hc] using hcache)
  | some t0 =>
    by_cases hexp : isTokenExpired env.now t0
    · exfalso
      exact getValidTokenAcquire_attempts_ne_nil env st
        (by simpa [GetValidToken, hc, hexp] using hcache)
    · have : (Except.ok t0 : Except String Token) = Except.ok t := by
        simpa [GetValidToken, hc, hexp] using hok
      cases this
      simpa using hexp

/-- Claim C1 witness: the cached valid token is returned by `GetValidToken`
with no acquisition attempt, and the margin check confirms it. -/
theorem c1_amended_witness :
    (GetValidToken envC1w { cachedToken := some tokC1v }).result = Except.ok tokC1v ∧
    (GetValidToken envC1w { cachedToken := some tokC1v }).attempts = [] ∧
    isTokenExpired envC1w.now tokC1v = false :=
  ⟨rfl, rfl,
    c1_amended_cached_token_not_expired envC1w { cachedToken := some tokC1v }
      tokC1v rfl rfl⟩

/-- There is no cached credential that would pass the expiry check. -/
def noValidCached (env : AuthEnv) (st : AuthState) : Prop :=
  ∀ t, st.cachedToken = some t → isTokenExpired env.now t = true

/-- The personal refresh did not yield a usable token: the call errored or
returned an empty token string (the code's own acceptance condition is
`err == nil && newToken != ""`). -/
def refreshFailed (env : AuthEnv) : Prop :=
  match env.refreshResult with
  | Except.error _ => True
  | Except.ok t => t.raw = ""

/-- Helper: with no valid cached credential, `GetValidToken` runs its
acquisition part. -/
theorem getValidToken_eq_acquire_of_noValidCached (env : AuthEnv)
    (st : AuthState) (h : noValidCached env st) :
    GetValidToken env st = getValidTokenAcquire env st := by
  cases hc : st.cachedToken with
  | none => simp [GetValidToken, hc]
  | some t0 => simp [GetValidToken, hc, h t0 hc]

/-- Claim C8: with no valid cached credential, (i) if a personal refresh
secret is configured the refresh is attempted first; (ii) an anonymous
acquisition happens only when no secret is configured or the refresh failed
(errored or returned an empty token); (iii) an error is returned only when
the anonymous acquisition was attempted and itself failed; (iv) any
successfully returned token is cached. -/
theorem c8_acquisition_priority_and_caching (env : AuthEnv) (st : AuthState)
    (h : noValidCached env st) :
    (env.refreshSecret ≠ "" →
      (GetValidToken env st).attempts.head? = some AcquireAttempt.refresh) ∧
    (AcquireAttempt.anonymous ∈ (GetValidToken env st).attempts →
      env.refreshSecret = "" ∨ refreshFailed env) ∧
    (∀ e, (GetValidToken env st).result = Except.error e →
      AcquireAttempt.anonymous ∈ (GetValidToken env st).attempts ∧
        ∃ e2, env.anonResult = Except.error e2) ∧
    (∀ t, (GetValidToken env st).result = Except.ok t →
      (GetValidToken env st).state.cachedToken = some t) := by
  rw [getValidToken_eq_acquire_of_noValidCached env st h]
  by_cases hs : env.refreshSecret = ""
  · cases ha : env.anonResult <;>
      simp [getValidTokenAcquire, getValidTokenAnonPath, hs, ha]
  · cases hr : env.refreshResult with
    | ok t0 =>
      by_cases hraw : t0.raw = ""
      · cases ha : env.anonResult <;>
          simp [getValidTokenAcquire, getValidTokenAnonPath, refreshFailed,
            hs, hr, hraw, ha]
      · simp [getValidTokenAcquire, hs, hr, hraw]
    | error e0 =>
      cases ha : env.anonResult <;>
        simp [getValidTokenAcquire, getValidTokenAnonPath, refreshFailed,
          hs, hr, ha]

/-- The refresh token handed back by the environment of the C8 witness. -/
def tokC8 : Token := { raw := "refreshed-token", parseOk := true, exp? := some 100000 }

/-- A C8 witness environment: secret configured, refresh succeeds. -/
def envC8 : AuthEnv :=
  { refreshSecret := "personal-secret"
    refreshResult := Except.ok tokC8
    anonResult := Except.error "unused"
    now := 0 }

/-- Claim C8 witness: with an empty cache the hypothesis holds vacuously;
the refresh is attempted first and the refreshed token is cached. -/
theorem c8_acquisition_witness :
    noValidCached envC8 { cachedToken := none } ∧
    (GetValidToken envC8 { cachedToken := none }).attempts.head?
      = some AcquireAttempt.refresh ∧
    (GetValidToken envC8 { cachedToken := none }).state.cachedToken = some tokC8 := by
  have hyp : noValidCached envC8 { cachedToken := none } := fun t ht => nomatch ht
  have hmain := c8_acquisition_priority_and_caching envC8 { cachedToken := none } hyp
  exact ⟨hyp, hmain.1 (by decide), hmain.2.2.2 tokC8 rfl⟩

/-! ### Claim theorems — Streaming error path -/

/-- A processing run that fails immediately after the stream is opened,
having written nothing. -/
def processC5 : StreamWrites → StreamWrites × Option String :=
  fun w => (w, some "upstream failure")

/-- Claim C5 counterexample: when processing fails after the stream has been
opened, the bytes written are one error-typed event followed by the bare
newline of `Close` — the write sequence contains no stream-termination
event at all, contrary to the claim. -/
theorem c5_counterexample_no_termination_event :
    handleStreamingChat processC5
      = [WriteItem.sseData (EventPayload.errorEvent "upstream failure"),
         WriteItem.rawNewline] ∧
    (handleStreamingChat processC5).all (fun x => !isTerminationWrite x) = true :=
  ⟨rfl, rfl⟩

/-- Claim C5 (amended): when processing fails after the stream has been
opened, the handler appends exactly one error-typed event to whatever the
processing already wrote and then closes the stream with a bare newline; no
stream-termination event is emitted after the error. -/
theorem c5_amended_error_then_bare_newline
    (process : StreamWrites → StreamWrites × Option String)
    (w1 : StreamWrites) (e : String) (h : process [] = (w1, some e)) :
    handleStreamingChat process
      = w1 ++ [WriteItem.sseData (EventPayload.errorEvent e),
               WriteItem.rawNewline] := by
  simp [handleStreamingChat, h, sendError, sendEvent, closeStream]

/-- Claim C5 witness: the failing run writes the error event and the closing
newline only. -/
theorem c5_amended_witness :
    processC5 [] = ([], some "upstream failure") ∧
    handleStreamingChat processC5
      = [] ++ [WriteItem.sseData (EventPayload.errorEvent "upstream failure"),
               WriteItem.rawNewline] :=
  ⟨rfl, c5_amended_error_then_bare_newline processC5 [] "upstream failure" rfl⟩

/-! ### Claim theorems — Anonymous-token acquisition has no deduplication -/

/-- An environment whose anonymous-token POST succeeds. -/
def anonEnvC9 : AnonEnv :=
  { postResult := Except.ok
      { statusCode := 200, body := "", parsedAccessToken := some "anon-token" } }

/-- Claim C9 counterexample: two quota-exhaustion-triggered acquisition
calls issue two acquisition network calls, not one — each `getAnonymousToken`
invocation unconditionally performs its own POST, and the `Manager` holds no
in-flight marker or error-context window that could collapse them in any
interleaving. -/
theorem c9_counterexample_two_calls_two_requests :
    (getAnonymousToken anonEnvC9).2 + (getAnonymousToken anonEnvC9).2 = 2 ∧
    ¬ ((getAnonymousToken anonEnvC9).2 + (getAnonymousToken anonEnvC9).2 = 1) :=
  ⟨rfl, by decide⟩

/-- Claim C9 (amended): every `getAnonymousToken` invocation issues exactly
one acquisition network call regardless of its outcome, so two reports —
concurrent or not — issue two network calls, each caller receiving the
result of its own call. -/
theorem c9_amended_one_network_call_each (e1 e2 : AnonEnv) :
    (getAnonymousToken e1).2 = 1 ∧
    (getAnonymousToken e1).2 + (getAnonymousToken e2).2 = 2 :=
  ⟨rfl, rfl⟩

end Warp2Api
